import Mathlib

/-!
Shallow embedding of the jp_log logging facility (src/jp_log.h, src/jp_log.c).

The facility has no persistent state: each emission call renders a message
into a scratch buffer with vsprintf and writes one fprintf line to stdout
(info) or stderr (warn, exit); the exit tier then calls exit(EXIT_FAILURE).
We model the observable process state as the byte sequences written so far
to the two standard streams plus an optional exit status, and each C
function or macro as a function on that state.  Strings on the streams are
modelled as lists of characters so that output can be reasoned about with
list lemmas.
-/

namespace JpLog

/-- An argument consumed by a printf-style conversion.  The repository only
ever passes strings (%s) and ints (%d) to its own format templates. -/
inductive FmtArg where
  | str (s : String)
  | int (n : Int)
deriving Repr, DecidableEq

/-- Decimal digits of a natural number, most significant first, as written
by printf.  Fuel-based so it reduces in the kernel; natToDec supplies
enough fuel that the fuel case is never hit. -/
def natToDecAux : Nat → Nat → List Char → List Char
  | 0, _, acc => acc
  | fuel + 1, n, acc =>
    let d := Char.ofNat (48 + n % 10)
    if n < 10 then d :: acc
    else natToDecAux fuel (n / 10) (d :: acc)

/-- Decimal rendering of a natural number (printf renders 0 as "0"). -/
def natToDec (n : Nat) : List Char := natToDecAux (n + 1) n []

/-- Decimal rendering of a C int as produced by the %d conversion. -/
def intToDec : Int → List Char
  | Int.ofNat n => natToDec n
  | Int.negSucc n => '-' :: natToDec (n + 1)

/-- Model of vsprintf restricted to the conversions the repository uses
(%s, %d, %%); any other character is copied verbatim.  A conversion with a
missing or mismatched argument falls through to the verbatim case (the C
original is undefined behaviour there, see C7). -/
def renderFmt : List Char → List FmtArg → List Char
  | [], _ => []
  | '%' :: 's' :: rest, FmtArg.str s :: args => s.data ++ renderFmt rest args
  | '%' :: 'd' :: rest, FmtArg.int n :: args => intToDec n ++ renderFmt rest args
  | '%' :: '%' :: rest, args => '%' :: renderFmt rest args
  | c :: rest, args => c :: renderFmt rest args

/-- Observable state of the process: everything written so far to the two
standard streams, and the exit status once exit() has been called. -/
structure ProcState where
  out : List Char
  err : List Char
  exited : Option Nat
deriving Repr, DecidableEq

/-- Size of buffer for jpLog_*Fmt* functions (jp_log.c line 22). -/
def MSGBUFF_SIZE : Nat := 1024

/-- The fprintf format string of jpLog__info ("\33" is ESC). -/
def infoFmt : List Char := "[\x1b[34;1mINFO\x1b[0m][%s][%s][%d]: %s\n".data

/-- The fprintf format string of jpLog__warn. -/
def warnFmt : List Char := "[\x1b[33;1mWARN\x1b[0m][%s][%s][%d]: %s\n".data

/-- The fprintf format string of jpLog__exit. -/
def exitFmt : List Char := "[\x1b[31;1mEXIT\x1b[0m][%s][%s][%d]: %s\n".data

/-- The INFO tag as written, wrapped in blue/bold escape codes. -/
def infoTag : List Char := "\x1b[34;1mINFO\x1b[0m".data

/-- The WARN tag as written, wrapped in yellow/bold escape codes. -/
def warnTag : List Char := "\x1b[33;1mWARN\x1b[0m".data

/-- The EXIT tag as written, wrapped in red/bold escape codes. -/
def exitTag : List Char := "\x1b[31;1mEXIT\x1b[0m".data

/-- jpLog__info (jp_log.c lines 29-51): render the message into msgbuff
with vsprintf, then fprintf one line to stdout.  Returns to the caller
(exit status untouched). -/
def jpLog__info (file func : String) (line : Int) (fmt : String)
    (args : List FmtArg) (s : ProcState) : ProcState :=
  let msgbuff := renderFmt fmt.data args
  let written := renderFmt infoFmt
    [FmtArg.str file, FmtArg.str func, FmtArg.int line,
     FmtArg.str (String.mk msgbuff)]
  { s with out := s.out ++ written }

/-- jpLog__warn (jp_log.c lines 54-76): same as jpLog__info but the line
goes to stderr. -/
def jpLog__warn (file func : String) (line : Int) (fmt : String)
    (args : List FmtArg) (s : ProcState) : ProcState :=
  let msgbuff := renderFmt fmt.data args
  let written := renderFmt warnFmt
    [FmtArg.str file, FmtArg.str func, FmtArg.int line,
     FmtArg.str (String.mk msgbuff)]
  { s with err := s.err ++ written }

/-- jpLog__exit (jp_log.c lines 79-103): write the line to stderr, then
exit(EXIT_FAILURE).  EXIT_FAILURE is modelled as status 1. -/
def jpLog__exit (file func : String) (line : Int) (fmt : String)
    (args : List FmtArg) (s : ProcState) : ProcState :=
  let msgbuff := renderFmt fmt.data args
  let written := renderFmt exitFmt
    [FmtArg.str file, FmtArg.str func, FmtArg.int line,
     FmtArg.str (String.mk msgbuff)]
  { s with err := s.err ++ written, exited := some 1 }

/-- Expected shape of one emitted line:
[tag][file][function][line]: message newline (jp_log.h §6 format; the tag
carries its colour escapes). -/
def lineOf (tag : List Char) (file func : String) (line : Int)
    (msg : List Char) : List Char :=
  ['['] ++ tag ++ [']', '['] ++ file.data ++ [']', '['] ++ func.data ++
    [']', '['] ++ intToDec line ++ [']', ':', ' '] ++ msg ++ ['\n']

/-- A byte sequence that is exactly one line: a newline-free body followed
by a single terminating newline. -/
def isSingleLine (L : List Char) : Prop :=
  ∃ body, L = body ++ ['\n'] ∧ '\n' ∉ body

/-- jpLog_info(msg) macro (jp_log.h line 141): passes msg through the fixed
"%s" template. -/
def jpLog_info (file func : String) (line : Int) (msg : String) :
    ProcState → ProcState :=
  jpLog__info file func line "%s" [FmtArg.str msg]

/-- jpLog_warn(msg) macro (jp_log.h line 186). -/
def jpLog_warn (file func : String) (line : Int) (msg : String) :
    ProcState → ProcState :=
  jpLog__warn file func line "%s" [FmtArg.str msg]

/-- jpLog_exit(msg) macro (jp_log.h line 233). -/
def jpLog_exit (file func : String) (line : Int) (msg : String) :
    ProcState → ProcState :=
  jpLog__exit file func line "%s" [FmtArg.str msg]

/-- jpLog_infoFmt(fmt,...) macro (jp_log.h line 157). -/
def jpLog_infoFmt (file func : String) (line : Int) (fmt : String)
    (args : List FmtArg) : ProcState → ProcState :=
  jpLog__info file func line fmt args

/-- jpLog_warnFmt(fmt,...) macro (jp_log.h line 202). -/
def jpLog_warnFmt (file func : String) (line : Int) (fmt : String)
    (args : List FmtArg) : ProcState → ProcState :=
  jpLog__warn file func line fmt args

/-- jpLog_exitFmt(fmt,...) macro (jp_log.h line 253). -/
def jpLog_exitFmt (file func : String) (line : Int) (fmt : String)
    (args : List FmtArg) : ProcState → ProcState :=
  jpLog__exit file func line fmt args

/-- jpLog_infoIf(expr,msg) = ( (expr)?jpLog_info(msg),expr:expr )
(jp_log.h line 149), with the condition as a boolean value: log when true,
and yield the condition's value in both branches. -/
def jpLog_infoIf (file func : String) (line : Int) (expr : Bool)
    (msg : String) (s : ProcState) : ProcState × Bool :=
  if expr then (jpLog_info file func line msg s, expr) else (s, expr)

/-- jpLog_warnIf(expr,msg) (jp_log.h line 194). -/
def jpLog_warnIf (file func : String) (line : Int) (expr : Bool)
    (msg : String) (s : ProcState) : ProcState × Bool :=
  if expr then (jpLog_warn file func line msg s, expr) else (s, expr)

/-- jpLog_exitIf(expr,msg) (jp_log.h line 243). -/
def jpLog_exitIf (file func : String) (line : Int) (expr : Bool)
    (msg : String) (s : ProcState) : ProcState × Bool :=
  if expr then (jpLog_exit file func line msg s, expr) else (s, expr)

/-- jpLog_infoFmtIf(expr,fmt,...) (jp_log.h lines 167-168). -/
def jpLog_infoFmtIf (file func : String) (line : Int) (expr : Bool)
    (fmt : String) (args : List FmtArg) (s : ProcState) : ProcState × Bool :=
  if expr then (jpLog_infoFmt file func line fmt args s, expr) else (s, expr)

/-- jpLog_warnFmtIf(expr,fmt,...) (jp_log.h lines 212-213). -/
def jpLog_warnFmtIf (file func : String) (line : Int) (expr : Bool)
    (fmt : String) (args : List FmtArg) (s : ProcState) : ProcState × Bool :=
  if expr then (jpLog_warnFmt file func line fmt args s, expr) else (s, expr)

/-- jpLog_exitFmtIf(expr,fmt,...) (jp_log.h lines 265-266). -/
def jpLog_exitFmtIf (file func : String) (line : Int) (expr : Bool)
    (fmt : String) (args : List FmtArg) (s : ProcState) : ProcState × Bool :=
  if expr then (jpLog_exitFmt file func line fmt args s, expr) else (s, expr)

/-- The empty process state: nothing written, process alive. -/
def procState0 : ProcState := ⟨[], [], none⟩

/-- One call a client program can make into the facility; used to express
"control returns to the caller" and "no code after the call executes". -/
inductive Cmd where
  | info (file func : String) (line : Int) (fmt : String) (args : List FmtArg)
  | warn (file func : String) (line : Int) (fmt : String) (args : List FmtArg)
  | exit (file func : String) (line : Int) (fmt : String) (args : List FmtArg)
deriving Repr

/-- Effect of one call on the process state. -/
def step : Cmd → ProcState → ProcState
  | Cmd.info file func line fmt args, s => jpLog__info file func line fmt args s
  | Cmd.warn file func line fmt args, s => jpLog__warn file func line fmt args s
  | Cmd.exit file func line fmt args, s => jpLog__exit file func line fmt args s

/-- Run a sequence of calls; once exit() has fired nothing further executes. -/
def run : List Cmd → ProcState → ProcState
  | [], s => s
  | c :: cs, s => if s.exited = none then run cs (step c s) else s

theorem run_exited (cs : List Cmd) (s : ProcState) (h : ¬ s.exited = none) :
    run cs s = s := by
  cases cs with
  | nil => rfl
  | cons c cs => simp [run, h]

theorem renderFmt_pct_s (m : String) :
    renderFmt ['%', 's'] [FmtArg.str m] = m.data := by
  simp [renderFmt]

theorem renderFmt_info_line (file func : String) (line : Int) (m : List Char) :
    renderFmt infoFmt [FmtArg.str file, FmtArg.str func, FmtArg.int line,
      FmtArg.str (String.mk m)] = lineOf infoTag file func line m := by
  simp only [infoFmt, lineOf, infoTag, List.append_assoc]
  rfl

theorem renderFmt_warn_line (file func : String) (line : Int) (m : List Char) :
    renderFmt warnFmt [FmtArg.str file, FmtArg.str func, FmtArg.int line,
      FmtArg.str (String.mk m)] = lineOf warnTag file func line m := by
  simp only [warnFmt, lineOf, warnTag, List.append_assoc]
  rfl

theorem renderFmt_exit_line (file func : String) (line : Int) (m : List Char) :
    renderFmt exitFmt [FmtArg.str file, FmtArg.str func, FmtArg.int line,
      FmtArg.str (String.mk m)] = lineOf exitTag file func line m := by
  simp only [exitFmt, lineOf, exitTag, List.append_assoc]
  rfl

theorem jpLog__info_spec (file func : String) (line : Int) (fmt : String)
    (args : List FmtArg) (s : ProcState) :
    jpLog__info file func line fmt args s =
      { s with out := s.out ++
          lineOf infoTag file func line (renderFmt fmt.data args) } := by
  simp [jpLog__info, renderFmt_info_line]

theorem jpLog__warn_spec (file func : String) (line : Int) (fmt : String)
    (args : List FmtArg) (s : ProcState) :
    jpLog__warn file func line fmt args s =
      { s with err := s.err ++
          lineOf warnTag file func line (renderFmt fmt.data args) } := by
  simp [jpLog__warn, renderFmt_warn_line]

theorem jpLog__exit_spec (file func : String) (line : Int) (fmt : String)
    (args : List FmtArg) (s : ProcState) :
    jpLog__exit file func line fmt args s =
      { s with
        err := s.err ++
          lineOf exitTag file func line (renderFmt fmt.data args),
        exited := some 1 } := by
  simp [jpLog__exit, renderFmt_exit_line]

theorem char_ofNat_digit_ne_newline {r : Nat} (h : r < 10) :
    Char.ofNat (48 + r) ≠ '\n' := by
  interval_cases r <;> decide

theorem mem_natToDecAux {c : Char} : ∀ (fuel n : Nat) (acc : List Char),
    c ∈ natToDecAux fuel n acc →
      c ∈ acc ∨ ∃ m : Nat, c = Char.ofNat (48 + m % 10) := by
  intro fuel
  induction fuel with
  | zero => intro n acc h; exact Or.inl h
  | succ fuel ih =>
    intro n acc h
    simp only [natToDecAux] at h
    by_cases hn : n < 10
    · simp only [hn, if_true, List.mem_cons] at h
      rcases h with h | h
      · exact Or.inr ⟨n, h⟩
      · exact Or.inl h
    · simp only [hn, if_false] at h
      rcases ih _ _ h with h | h
      · rcases List.mem_cons.mp h with h | h
        · exact Or.inr ⟨n, h⟩
        · exact Or.inl h
      · exact Or.inr h

theorem newline_not_mem_natToDec (n : Nat) : '\n' ∉ natToDec n := by
  intro h
  rcases mem_natToDecAux _ _ _ h with h | ⟨m, hm⟩
  · exact List.not_mem_nil _ h
  · exact char_ofNat_digit_ne_newline (Nat.mod_lt m (by decide)) hm.symm

theorem newline_not_mem_intToDec (i : Int) : '\n' ∉ intToDec i := by
  cases i with
  | ofNat n => exact newline_not_mem_natToDec n
  | negSucc n =>
    intro h
    rcases List.mem_cons.mp h with h | h
    · exact absurd h (by decide)
    · exact newline_not_mem_natToDec _ h

theorem not_mem_app {α : Type} {a : α} {l₁ l₂ : List α}
    (h₁ : a ∉ l₁) (h₂ : a ∉ l₂) : a ∉ l₁ ++ l₂ := by
  simp only [List.mem_append]
  tauto

theorem isSingleLine_lineOf (tag : List Char) (file func : String)
    (line : Int) (m : List Char) (ht : '\n' ∉ tag) (hf : '\n' ∉ file.data)
    (hfn : '\n' ∉ func.data) (hm : '\n' ∉ m) :
    isSingleLine (lineOf tag file func line m) := by
  refine ⟨['['] ++ (tag ++ ([']', '['] ++ (file.data ++ ([']', '['] ++
    (func.data ++ ([']', '['] ++ (intToDec line ++
      ([']', ':', ' '] ++ m)))))))), ?_, ?_⟩
  · simp [lineOf, List.append_assoc]
  · exact not_mem_app (by decide) (not_mem_app ht (not_mem_app (by decide)
      (not_mem_app hf (not_mem_app (by decide) (not_mem_app hfn
        (not_mem_app (by decide) (not_mem_app (newline_not_mem_intToDec line)
          (not_mem_app (by decide) hm))))))))

theorem newline_not_mem_infoTag : '\n' ∉ infoTag := by decide

theorem newline_not_mem_warnTag : '\n' ∉ warnTag := by decide

theorem newline_not_mem_exitTag : '\n' ∉ exitTag := by decide

/-- C1: a jpLog__info / jpLog__warn call (via the plain-message macros)
writes exactly one properly terminated line of the form
[TAG][file][function][line]: message, with the INFO line appended to
standard output and the WARN line to standard error, leaves the other
stream and the exit status untouched, and returns control to the caller. -/
theorem C1_info_warn_emission (file func msg : String) (line : Int)
    (s : ProcState) (cs : List Cmd) (hf : '\n' ∉ file.data)
    (hfn : '\n' ∉ func.data) (hm : '\n' ∉ msg.data) (hl : s.exited = none) :
    ((jpLog_info file func line msg s).out
        = s.out ++ lineOf infoTag file func line msg.data
      ∧ (jpLog_info file func line msg s).err = s.err
      ∧ (jpLog_info file func line msg s).exited = s.exited)
    ∧ ((jpLog_warn file func line msg s).err
        = s.err ++ lineOf warnTag file func line msg.data
      ∧ (jpLog_warn file func line msg s).out = s.out
      ∧ (jpLog_warn file func line msg s).exited = s.exited)
    ∧ isSingleLine (lineOf infoTag file func line msg.data)
    ∧ isSingleLine (lineOf warnTag file func line msg.data)
    ∧ run (Cmd.info file func line "%s" [FmtArg.str msg] :: cs) s
        = run cs (jpLog_info file func line msg s)
    ∧ run (Cmd.warn file func line "%s" [FmtArg.str msg] :: cs) s
        = run cs (jpLog_warn file func line msg s) := by
  refine ⟨⟨?_, ?_, ?_⟩, ⟨?_, ?_, ?_⟩, ?_, ?_, ?_, ?_⟩
  · simp [jpLog_info, jpLog__info_spec, renderFmt_pct_s]
  · simp [jpLog_info, jpLog__info_spec]
  · simp [jpLog_info, jpLog__info_spec]
  · simp [jpLog_warn, jpLog__warn_spec, renderFmt_pct_s]
  · simp [jpLog_warn, jpLog__warn_spec]
  · simp [jpLog_warn, jpLog__warn_spec]
  · exact isSingleLine_lineOf _ _ _ _ _ newline_not_mem_infoTag hf hfn hm
  · exact isSingleLine_lineOf _ _ _ _ _ newline_not_mem_warnTag hf hfn hm
  · simp [run, hl, step, jpLog_info]
  · simp [run, hl, step, jpLog_warn]

/-- C1 witness: the theorem instantiated at the spec §8 scenario
logWarn(loc("b.c","parse",22), "unexpected token"). -/
theorem C1_witness :
    (JpLog.jpLog_warn "b.c" "parse" 22 "unexpected token" JpLog.procState0).err
      = [] ++ JpLog.lineOf JpLog.warnTag "b.c" "parse" 22
          "unexpected token".data := by
  exact (C1_info_warn_emission "b.c" "parse" "unexpected token" 22
    procState0 [] (by decide) (by decide) (by decide) rfl).2.1.1

/-- C2: a jpLog__exit call (via the jpLog_exit macro) appends exactly one
§6-format EXIT line to standard error, touches nothing on standard output,
terminates the process with the failure status EXIT_FAILURE = 1 (non-zero),
and no later call in the program executes after it. -/
theorem C2_exit_emission (file func msg : String) (line : Int)
    (s : ProcState) (cs : List Cmd) (hf : '\n' ∉ file.data)
    (hfn : '\n' ∉ func.data) (hm : '\n' ∉ msg.data) (hl : s.exited = none) :
    (jpLog_exit file func line msg s).err
        = s.err ++ lineOf exitTag file func line msg.data
    ∧ (jpLog_exit file func line msg s).out = s.out
    ∧ (jpLog_exit file func line msg s).exited = some 1
    ∧ (jpLog_exit file func line msg s).exited ≠ some 0
    ∧ isSingleLine (lineOf exitTag file func line msg.data)
    ∧ run (Cmd.exit file func line "%s" [FmtArg.str msg] :: cs) s
        = jpLog_exit file func line msg s := by
  refine ⟨?_, ?_, ?_, ?_, ?_, ?_⟩
  · simp [jpLog_exit, jpLog__exit_spec, renderFmt_pct_s]
  · simp [jpLog_exit, jpLog__exit_spec]
  · simp [jpLog_exit, jpLog__exit_spec]
  · simp [jpLog_exit, jpLog__exit_spec]
  · exact isSingleLine_lineOf _ _ _ _ _ newline_not_mem_exitTag hf hfn hm
  · show run _ s = _
    rw [run]
    simp only [hl, if_true]
    exact run_exited cs _ (by simp [step, jpLog_exit, jpLog__exit_spec])

/-- C2 witness: the theorem at the spec §8 scenario
logExitIf(true, loc("c.c","init",5), "unreachable")'s emission. -/
theorem C2_witness :
    (JpLog.jpLog_exit "c.c" "init" 5 "unreachable" JpLog.procState0).exited
      = some 1 := by
  exact (C2_exit_emission "c.c" "init" "unreachable" 5 procState0 []
    (by decide) (by decide) (by decide) rfl).2.2.1

/-- The 2000-character message of the spec §8 overflow scenario. -/
def big2000 : String := String.mk (List.replicate 2000 'a')

theorem big2000_data : big2000.data = List.replicate 2000 'a' := rfl

/-- C3: the code calls vsprintf with no length bound (jp_log.c lines
36-41), so a template rendering to 2000 characters produces the full
2000-character message - 2001 bytes with the terminator, which cannot fit
the 1024-byte msgbuff (a buffer overrun in the C original) - and not the
1023-character truncation the claim requires; the whole untruncated text
is what reaches the output line. -/
theorem C3_overflow_eval :
    MSGBUFF_SIZE = 1024
  ∧ renderFmt ['%', 's'] [FmtArg.str big2000] = List.replicate 2000 'a'
  ∧ (renderFmt ['%', 's'] [FmtArg.str big2000]).length = 2000
  ∧ ¬ ((renderFmt ['%', 's'] [FmtArg.str big2000]).length + 1 ≤ MSGBUFF_SIZE)
  ∧ (renderFmt ['%', 's'] [FmtArg.str big2000]).length ≠ 1023
  ∧ (jpLog_infoFmt "x" "f" 1 "%s" [FmtArg.str big2000] procState0).out
      = lineOf infoTag "x" "f" 1 (List.replicate 2000 'a') := by
  have hr : renderFmt ['%', 's'] [FmtArg.str big2000]
      = List.replicate 2000 'a' := (renderFmt_pct_s big2000).trans big2000_data
  refine ⟨rfl, hr, ?_, ?_, ?_, ?_⟩
  · rw [hr, List.length_replicate]
  · rw [hr, List.length_replicate]; decide
  · rw [hr, List.length_replicate]; decide
  · show (jpLog__info "x" "f" 1 "%s" [FmtArg.str big2000] procState0).out
      = lineOf infoTag "x" "f" 1 (List.replicate 2000 'a')
    have hr' : renderFmt (String.data "%s") [FmtArg.str big2000]
        = List.replicate 2000 'a' := hr
    rw [jpLog__info_spec, hr']
    rfl

/-- C4: each guarded form with a true condition is the corresponding
unguarded emission paired with the condition's value (for the exit tier
that emission terminates the process), with a false condition it leaves
the state untouched and still yields the condition, and in every case the
yielded boolean equals the condition, so the form works inline. -/
theorem C4_guarded_forms (file func msg fmt : String) (args : List FmtArg)
    (line : Int) (c : Bool) (s : ProcState) :
    jpLog_infoIf file func line true msg s
        = (jpLog_info file func line msg s, true)
  ∧ jpLog_infoIf file func line false msg s = (s, false)
  ∧ jpLog_warnIf file func line true msg s
        = (jpLog_warn file func line msg s, true)
  ∧ jpLog_warnIf file func line false msg s = (s, false)
  ∧ jpLog_exitIf file func line true msg s
        = (jpLog_exit file func line msg s, true)
  ∧ (jpLog_exitIf file func line true msg s).1.exited = some 1
  ∧ jpLog_exitIf file func line false msg s = (s, false)
  ∧ (jpLog_exitIf file func line false msg s).1.exited = s.exited
  ∧ jpLog_infoFmtIf file func line true fmt args s
        = (jpLog_infoFmt file func line fmt args s, true)
  ∧ jpLog_infoFmtIf file func line false fmt args s = (s, false)
  ∧ jpLog_warnFmtIf file func line true fmt args s
        = (jpLog_warnFmt file func line fmt args s, true)
  ∧ jpLog_warnFmtIf file func line false fmt args s = (s, false)
  ∧ jpLog_exitFmtIf file func line true fmt args s
        = (jpLog_exitFmt file func line fmt args s, true)
  ∧ jpLog_exitFmtIf file func line false fmt args s = (s, false)
  ∧ (jpLog_infoIf file func line c msg s).2 = c
  ∧ (jpLog_warnIf file func line c msg s).2 = c
  ∧ (jpLog_exitIf file func line c msg s).2 = c
  ∧ (jpLog_infoFmtIf file func line c fmt args s).2 = c
  ∧ (jpLog_warnFmtIf file func line c fmt args s).2 = c
  ∧ (jpLog_exitFmtIf file func line c fmt args s).2 = c := by
  refine ⟨rfl, rfl, rfl, rfl, rfl, rfl, rfl, rfl, rfl, rfl, rfl, rfl, rfl,
    rfl, ?_, ?_, ?_, ?_, ?_, ?_⟩ <;> cases c <;> rfl

/-- With JP_LOG_NOINFO defined, jpLog_info(msg) expands to ((void)(msg))
(jp_log.h line 172): the argument is evaluated and discarded. -/
def jpLog_info_disabled (msg : String) (s : ProcState) : ProcState := s

/-- Disabled jpLog_infoIf (jp_log.h line 173). -/
def jpLog_infoIf_disabled (expr : Bool) (msg : String) (s : ProcState) :
    ProcState := s

/-- Disabled jpLog_infoFmt (jp_log.h line 174). -/
def jpLog_infoFmt_disabled (fmt : String) (args : List FmtArg)
    (s : ProcState) : ProcState := s

/-- Disabled jpLog_infoFmtIf (jp_log.h line 175). -/
def jpLog_infoFmtIf_disabled (expr : Bool) (fmt : String) (args : List FmtArg)
    (s : ProcState) : ProcState := s

/-- Disabled jpLog_warn (jp_log.h line 217). -/
def jpLog_warn_disabled (msg : String) (s : ProcState) : ProcState := s

/-- Disabled jpLog_warnIf (jp_log.h line 218). -/
def jpLog_warnIf_disabled (expr : Bool) (msg : String) (s : ProcState) :
    ProcState := s

/-- Disabled jpLog_warnFmt (jp_log.h line 219). -/
def jpLog_warnFmt_disabled (fmt : String) (args : List FmtArg)
    (s : ProcState) : ProcState := s

/-- Disabled jpLog_warnFmtIf (jp_log.h line 220). -/
def jpLog_warnFmtIf_disabled (expr : Bool) (fmt : String) (args : List FmtArg)
    (s : ProcState) : ProcState := s

/-- Disabled jpLog_exit (jp_log.h line 270): no write and no exit(). -/
def jpLog_exit_disabled (msg : String) (s : ProcState) : ProcState := s

/-- Disabled jpLog_exitIf (jp_log.h line 271). -/
def jpLog_exitIf_disabled (expr : Bool) (msg : String) (s : ProcState) :
    ProcState := s

/-- Disabled jpLog_exitFmt (jp_log.h line 272). -/
def jpLog_exitFmt_disabled (fmt : String) (args : List FmtArg)
    (s : ProcState) : ProcState := s

/-- Disabled jpLog_exitFmtIf (jp_log.h line 273). -/
def jpLog_exitFmtIf_disabled (expr : Bool) (fmt : String) (args : List FmtArg)
    (s : ProcState) : ProcState := s

/-- C5: with a tier compiled out, every operation of that tier accepts its
arguments and leaves the process state (both streams and the exit status)
completely unchanged; in particular the disabled exit tier never
terminates the process. -/
theorem C5_disabled_noop (msg fmt : String) (args : List FmtArg) (c : Bool)
    (s : ProcState) :
    jpLog_info_disabled msg s = s
  ∧ jpLog_infoIf_disabled c msg s = s
  ∧ jpLog_infoFmt_disabled fmt args s = s
  ∧ jpLog_infoFmtIf_disabled c fmt args s = s
  ∧ jpLog_warn_disabled msg s = s
  ∧ jpLog_warnIf_disabled c msg s = s
  ∧ jpLog_warnFmt_disabled fmt args s = s
  ∧ jpLog_warnFmtIf_disabled c fmt args s = s
  ∧ jpLog_exit_disabled msg s = s
  ∧ jpLog_exitIf_disabled c msg s = s
  ∧ jpLog_exitFmt_disabled fmt args s = s
  ∧ jpLog_exitFmtIf_disabled c fmt args s = s
  ∧ (jpLog_exit_disabled msg s).exited = s.exited
  ∧ (jpLog_exitIf_disabled c msg s).exited = s.exited
  ∧ (jpLog_exitFmtIf_disabled c fmt args s).exited = s.exited :=
  ⟨rfl, rfl, rfl, rfl, rfl, rfl, rfl, rfl, rfl, rfl, rfl, rfl, rfl, rfl, rfl⟩

/-- jpLog__info with the destination stream's terminal-capability made
explicit.  The C function never tests the stream (there is no isatty call
anywhere in the repository), so the parameter is unused and the output
bytes are identical either way. -/
def jpLog__info_term (isTerminal : Bool) (file func : String) (line : Int)
    (fmt : String) (args : List FmtArg) : ProcState → ProcState :=
  jpLog__info file func line fmt args

/-- jpLog__warn with the (ignored) terminal-capability made explicit. -/
def jpLog__warn_term (isTerminal : Bool) (file func : String) (line : Int)
    (fmt : String) (args : List FmtArg) : ProcState → ProcState :=
  jpLog__warn file func line fmt args

/-- jpLog__exit with the (ignored) terminal-capability made explicit. -/
def jpLog__exit_term (isTerminal : Bool) (file func : String) (line : Int)
    (fmt : String) (args : List FmtArg) : ProcState → ProcState :=
  jpLog__exit file func line fmt args

/-- C6 counterexample: an INFO emission to a standard output that is NOT
terminal-capable still contains the ESC (0x1b) colour-escape byte, so
colour codes are not "absent otherwise" as the claim requires. -/
theorem C6_counterexample :
    '\x1b' ∈ (JpLog.jpLog__info_term false "a.c" "main" 10 "%s"
      [JpLog.FmtArg.str "hi"] JpLog.procState0).out := by
  decide

/-- C6 amended: the tag is always wrapped in colour-escape sequences
(blue/bold for INFO, yellow/bold for WARN, red/bold for EXIT) regardless
of whether the destination stream is a terminal; the emitted bytes do not
depend on terminal-capability at all. -/
theorem C6_amended (b b' : Bool) (file func fmt : String)
    (args : List FmtArg) (line : Int) (s : ProcState) :
    jpLog__info_term b file func line fmt args s
        = jpLog__info_term b' file func line fmt args s
  ∧ jpLog__warn_term b file func line fmt args s
        = jpLog__warn_term b' file func line fmt args s
  ∧ jpLog__exit_term b file func line fmt args s
        = jpLog__exit_term b' file func line fmt args s
  ∧ (jpLog__info_term b file func line fmt args s).out
        = s.out ++ lineOf infoTag file func line (renderFmt fmt.data args)
  ∧ (jpLog__warn_term b file func line fmt args s).err
        = s.err ++ lineOf warnTag file func line (renderFmt fmt.data args)
  ∧ (jpLog__exit_term b file func line fmt args s).err
        = s.err ++ lineOf exitTag file func line (renderFmt fmt.data args)
  ∧ infoTag = "\x1b[34;1m".data ++ "INFO".data ++ "\x1b[0m".data
  ∧ warnTag = "\x1b[33;1m".data ++ "WARN".data ++ "\x1b[0m".data
  ∧ exitTag = "\x1b[31;1m".data ++ "EXIT".data ++ "\x1b[0m".data := by
  refine ⟨rfl, rfl, rfl, ?_, ?_, ?_, by decide, by decide, by decide⟩
  · simp [jpLog__info_term, jpLog__info_spec]
  · simp [jpLog__warn_term, jpLog__warn_spec]
  · simp [jpLog__exit_term, jpLog__exit_spec]

/-- C8: the plain-message macros route the message through the fixed "%s"
template, never through the format interpreter as a template: the rendered
message equals the given message for every string, percent signs included,
and the emitted line carries it verbatim.  The last conjunct shows it on a
percent-laden message. -/
theorem C8_plain_msg_verbatim (file func msg : String) (line : Int)
    (s : ProcState) :
    renderFmt ['%', 's'] [FmtArg.str msg] = msg.data
  ∧ (jpLog_info file func line msg s).out
      = s.out ++ lineOf infoTag file func line msg.data
  ∧ (jpLog_warn file func line msg s).err
      = s.err ++ lineOf warnTag file func line msg.data
  ∧ (jpLog_exit file func line msg s).err
      = s.err ++ lineOf exitTag file func line msg.data
  ∧ renderFmt ['%', 's'] [FmtArg.str "100% of %d%s"] = "100% of %d%s".data := by
  refine ⟨renderFmt_pct_s msg, ?_, ?_, ?_, renderFmt_pct_s _⟩
  · simp [jpLog_info, jpLog__info_spec, renderFmt_pct_s]
  · simp [jpLog_warn, jpLog__warn_spec, renderFmt_pct_s]
  · simp [jpLog_exit, jpLog__exit_spec, renderFmt_pct_s]

/-- jpLog_infoIf with the condition as an effectful expression over a
state type σ (evaluating the expression yields a boolean and a new
state), expanded from the macro text ( (expr)?jpLog_info(msg),expr:expr ):
the expression is evaluated once as the test, then again in whichever
branch is taken to produce the yielded value. -/
def jpLog_infoIfE {σ : Type} (file func : String) (line : Int)
    (expr : σ → Bool × σ) (msg : String) (p : ProcState × σ) :
    (ProcState × σ) × Bool :=
  let e1 := expr p.2
  if e1.1 then
    let e2 := expr e1.2
    ((jpLog_info file func line msg p.1, e2.2), e2.1)
  else
    let e2 := expr e1.2
    ((p.1, e2.2), e2.1)

/-- jpLog_warnIf with an effectful condition expression. -/
def jpLog_warnIfE {σ : Type} (file func : String) (line : Int)
    (expr : σ → Bool × σ) (msg : String) (p : ProcState × σ) :
    (ProcState × σ) × Bool :=
  let e1 := expr p.2
  if e1.1 then
    let e2 := expr e1.2
    ((jpLog_warn file func line msg p.1, e2.2), e2.1)
  else
    let e2 := expr e1.2
    ((p.1, e2.2), e2.1)

/-- jpLog_infoFmtIf with an effectful condition expression. -/
def jpLog_infoFmtIfE {σ : Type} (file func : String) (line : Int)
    (expr : σ → Bool × σ) (fmt : String) (args : List FmtArg)
    (p : ProcState × σ) : (ProcState × σ) × Bool :=
  let e1 := expr p.2
  if e1.1 then
    let e2 := expr e1.2
    ((jpLog_infoFmt file func line fmt args p.1, e2.2), e2.1)
  else
    let e2 := expr e1.2
    ((p.1, e2.2), e2.1)

/-- jpLog_warnFmtIf with an effectful condition expression. -/
def jpLog_warnFmtIfE {σ : Type} (file func : String) (line : Int)
    (expr : σ → Bool × σ) (fmt : String) (args : List FmtArg)
    (p : ProcState × σ) : (ProcState × σ) × Bool :=
  let e1 := expr p.2
  if e1.1 then
    let e2 := expr e1.2
    ((jpLog_warnFmt file func line fmt args p.1, e2.2), e2.1)
  else
    let e2 := expr e1.2
    ((p.1, e2.2), e2.1)

/-- jpLog_exitIf with an effectful condition expression.  When the test is
true the emission calls exit(), the process terminates and the trailing
occurrence of expr in the macro expansion never executes: the condition's
side effects happen only once on that path and its first value stands. -/
def jpLog_exitIfE {σ : Type} (file func : String) (line : Int)
    (expr : σ → Bool × σ) (msg : String) (p : ProcState × σ) :
    (ProcState × σ) × Bool :=
  let e1 := expr p.2
  if e1.1 then
    ((jpLog_exit file func line msg p.1, e1.2), e1.1)
  else
    let e2 := expr e1.2
    ((p.1, e2.2), e2.1)

/-- jpLog_exitFmtIf with an effectful condition expression; like
jpLog_exitIfE, a true test terminates the process inside the emission, so
the condition's trailing occurrence never executes on that path. -/
def jpLog_exitFmtIfE {σ : Type} (file func : String) (line : Int)
    (expr : σ → Bool × σ) (fmt : String) (args : List FmtArg)
    (p : ProcState × σ) : (ProcState × σ) × Bool :=
  let e1 := expr p.2
  if e1.1 then
    ((jpLog_exitFmt file func line fmt args p.1, e1.2), e1.1)
  else
    let e2 := expr e1.2
    ((p.1, e2.2), e2.1)

/-- A condition expression with a side effect: it increments a counter
and evaluates to true. -/
def tick (n : Nat) : Bool × Nat := (true, n + 1)

/-- C9 counterexample: jpLog_exitIf with a true, side-effecting condition
advances the counter once, not twice - the process terminates inside
jpLog__exit before the condition's second occurrence can run. -/
theorem C9_counterexample :
    (JpLog.jpLog_exitIfE "c.c" "init" 5 JpLog.tick "m"
        (JpLog.procState0, 0)).1.2 = 1
  ∧ (JpLog.jpLog_exitIfE "c.c" "init" 5 JpLog.tick "m"
        (JpLog.procState0, 0)).1.2 ≠ 2
  ∧ ((JpLog.jpLog_exitIfE "c.c" "init" 5 JpLog.tick "m"
        (JpLog.procState0, 0)).1.1).exited = some 1 :=
  ⟨rfl, by decide, rfl⟩

/-- C9 amended: for the enabled info/warn guarded forms (plain and
formatted) the condition expression is evaluated twice per invocation -
once as the test and once more for the yielded value, which is that of
the second evaluation; the exit-tier guarded form evaluates it twice only
when the condition is false, because a true condition terminates the
process during the emission and the second evaluation never runs. -/
theorem C9_amended {σ : Type} (expr : σ → Bool × σ) (st : σ)
    (file func msg fmt : String) (args : List FmtArg) (line : Int)
    (s : ProcState) :
    (jpLog_infoIfE file func line expr msg (s, st)).1.2
        = (expr (expr st).2).2
  ∧ (jpLog_infoIfE file func line expr msg (s, st)).2
        = (expr (expr st).2).1
  ∧ (jpLog_warnIfE file func line expr msg (s, st)).1.2
        = (expr (expr st).2).2
  ∧ (jpLog_warnIfE file func line expr msg (s, st)).2
        = (expr (expr st).2).1
  ∧ (jpLog_infoFmtIfE file func line expr fmt args (s, st)).1.2
        = (expr (expr st).2).2
  ∧ (jpLog_infoFmtIfE file func line expr fmt args (s, st)).2
        = (expr (expr st).2).1
  ∧ (jpLog_warnFmtIfE file func line expr fmt args (s, st)).1.2
        = (expr (expr st).2).2
  ∧ (jpLog_warnFmtIfE file func line expr fmt args (s, st)).2
        = (expr (expr st).2).1
  ∧ (jpLog_exitIfE file func line expr msg (s, st)).1.2
        = (if (expr st).1 then (expr st).2 else (expr (expr st).2).2)
  ∧ (jpLog_exitFmtIfE file func line expr fmt args (s, st)).1.2
        = (if (expr st).1 then (expr st).2 else (expr (expr st).2).2) := by
  refine ⟨?_, ?_, ?_, ?_, ?_, ?_, ?_, ?_, ?_, ?_⟩ <;>
    cases h : (expr st).1 <;>
      simp [jpLog_infoIfE, jpLog_warnIfE, jpLog_infoFmtIfE, jpLog_warnFmtIfE,
        jpLog_exitIfE, jpLog_exitFmtIfE, h]

/-- C10: each emission is deterministic and stateless: the bytes it
appends to its destination stream are a function of the arguments alone,
so two invocations with equal (file, function, line, message) arguments
write byte-for-byte identical lines regardless of anything written
before, and nothing persists between calls beyond the streams
themselves. -/
theorem C10_deterministic (file func fmt : String) (args : List FmtArg)
    (line : Int) :
    (∃ w, ∀ s : ProcState,
        (jpLog__info file func line fmt args s).out = s.out ++ w
      ∧ (jpLog__info file func line fmt args s).err = s.err
      ∧ (jpLog__info file func line fmt args s).exited = s.exited)
  ∧ (∃ w, ∀ s : ProcState,
        (jpLog__warn file func line fmt args s).err = s.err ++ w
      ∧ (jpLog__warn file func line fmt args s).out = s.out
      ∧ (jpLog__warn file func line fmt args s).exited = s.exited)
  ∧ (∃ w, ∀ s : ProcState,
        (jpLog__exit file func line fmt args s).err = s.err ++ w
      ∧ (jpLog__exit file func line fmt args s).out = s.out
      ∧ (jpLog__exit file func line fmt args s).exited = some 1) := by
  refine ⟨⟨lineOf infoTag file func line (renderFmt fmt.data args),
      fun s => ⟨?_, ?_, ?_⟩⟩,
    ⟨lineOf warnTag file func line (renderFmt fmt.data args),
      fun s => ⟨?_, ?_, ?_⟩⟩,
    ⟨lineOf exitTag file func line (renderFmt fmt.data args),
      fun s => ⟨?_, ?_, ?_⟩⟩⟩ <;>
    simp [jpLog__info_spec, jpLog__warn_spec, jpLog__exit_spec]

end JpLog
